import Mathlib

/-!
Shallow embedding of the JsSIP RFC 6665 Subscriber / Notifier pair
(`src/unnamed/part_001`, definitive Subscriber revision, and
`src/lib/Notifier.js`, definitive Notifier revision).

Pure JavaScript methods become Lean functions; stateful methods become
functions `State → Input → State × List Out` where `Out` records the
observable effects (SIP replies, outbound requests, emitted events,
dialog registration).  Timers are modelled inside the state as
armed-or-not values carrying their delay; a timer-fire is an explicit
input which is a no-op when the timer is not armed (mirroring
`clearTimeout`).  The ambient clock `new Date().getTime()` and
`Math.random()` are passed as explicit `now` / `r` arguments.
-/

/-! ## JavaScript value helpers -/

/-- A JavaScript number-or-string value, as stored in `this._expires` by the
Notifier (`parseInt` result, the literal `900`, or the raw header string that
`receiveRequest` assigns without parsing).  `jnan` models `NaN`. -/
inductive JsVal where
  | jnum (n : Int)
  | jstr (s : String)
  | jnan
deriving Repr, DecidableEq

/-- JavaScript strict equality `v === n` against a number: a string or `NaN`
is never strictly equal to a number. -/
def jsStrictEqNum : JsVal → Int → Bool
  | JsVal.jnum m, n => m == n
  | JsVal.jstr _, _ => false
  | JsVal.jnan, _ => false

/-- Template-literal rendering of a JsVal. -/
def jsValToString : JsVal → String
  | JsVal.jnum n => toString n
  | JsVal.jstr s => s
  | JsVal.jnan => "NaN"

/-- JavaScript truthiness of a string-or-null/undefined value:
`null`, `undefined` and the empty string are falsy. -/
def jsTruthyStr : Option String → Bool
  | none => false
  | some s => s != ""

/-- Digits prefix of a character list. -/
def takeDigits : List Char → List Char
  | [] => []
  | c :: cs => if c.isDigit then c :: takeDigits cs else []

/-- Decimal value of a digit list. -/
def digitsToInt (ds : List Char) : Int :=
  ds.foldl (fun a c => a * 10 + ((c.toNat : Int) - 48)) 0

/-- JavaScript `parseInt` on a string: skip leading whitespace, optional
sign, then a decimal-digit prefix; `none` models `NaN` (no digits). -/
def parseIntJS (s : String) : Option Int :=
  match s.toList.dropWhile (fun c => c.isWhitespace) with
  | '-' :: rest =>
      let ds := takeDigits rest
      if ds = [] then none else some (-(digitsToInt ds))
  | '+' :: rest =>
      let ds := takeDigits rest
      if ds = [] then none else some (digitsToInt ds)
  | cs =>
      let ds := takeDigits cs
      if ds = [] then none else some (digitsToInt ds)

/-- JavaScript `Number(...)` coercion of a string: a trimmed empty string is
0, otherwise an optionally signed all-digit numeral; `none` models `NaN`
(the fractional and exponent forms never occur in the embedded code). -/
def jsStrToNumber (s : String) : Option Int :=
  let cs := (((s.toList.dropWhile (fun c => c.isWhitespace)).reverse.dropWhile
    (fun c => c.isWhitespace)).reverse)
  match cs with
  | [] => some 0
  | '-' :: rest =>
      if rest ≠ [] ∧ rest.all (fun c => c.isDigit) then some (-(digitsToInt rest))
      else none
  | '+' :: rest =>
      if rest ≠ [] ∧ rest.all (fun c => c.isDigit) then some (digitsToInt rest)
      else none
  | _ =>
      if cs.all (fun c => c.isDigit) then some (digitsToInt cs) else none

/-- String prefix test (`String.prototype.startsWith`), structurally on the
character lists. -/
def strStartsWith (s pre : String) : Bool :=
  pre.toList.isPrefixOf s.toList

/-- `String.prototype.toLowerCase`, structurally on the character list. -/
def strToLower (s : String) : String :=
  String.mk (s.toList.map (fun c => c.toLower))

/-- JavaScript `parseInt` producing a JsVal (`NaN` when no digits). -/
def parseIntJsVal (s : String) : JsVal :=
  match parseIntJS s with
  | some n => JsVal.jnum n
  | none => JsVal.jnan

/-- JavaScript numeric coercion `v * k` (used by `this._expires * 1000`);
`none` models `NaN`.  Strings are converted with `Number(...)`, modelled here
for integer-literal strings. -/
def jsMulNum (v : JsVal) (k : Int) : Option Int :=
  match v with
  | JsVal.jnum n => some (n * k)
  | JsVal.jstr s => (jsStrToNumber s).map (fun n => n * k)
  | JsVal.jnan => none

/-- JavaScript `v > 0` with numeric coercion; `NaN > 0` is false. -/
def jsGtZero : JsVal → Bool
  | JsVal.jnum n => n > 0
  | JsVal.jstr s => match jsStrToNumber s with
    | some n => n > 0
    | none => false
  | JsVal.jnan => false

/-! ## Observable effects -/

/-- One observable effect of a Subscriber / Notifier method: a SIP reply to an
inbound request, an outbound request handed to the UA/dialog, a UA dialog
registry operation, or an emitted application event. -/
inductive Out where
  | reply (code : Int) (extraHeaders : List String)
  | sendRequest (method : String) (headers : List String) (body : Option String)
  | newDialog
  | destroyDialog
  | dialogTerminate
  | emitActive
  | emitNotify (is_final : Bool) (body : String) (content_type : Option String)
  | emitSubscribe (is_unsubscribe : Bool) (body : Option String) (content_type : Option String)
  | emitTerminatedS (code : Int) (reason : Option String)
  | emitTerminatedN (code : Int) (send_final_notify : Bool)
  | threw
deriving Repr, DecidableEq

/-- Number of `terminated` events (either side) in an output trace. -/
def countTerminated (l : List Out) : Nat :=
  l.countP (fun o =>
    match o with
    | Out.emitTerminatedS _ _ => true
    | Out.emitTerminatedN _ _ => true
    | _ => false)

/-- Number of outbound requests (`_send` / `sendRequest`) in an output trace. -/
def countSends (l : List Out) : Nat :=
  l.countP (fun o =>
    match o with
    | Out.sendRequest _ _ _ => true
    | _ => false)

/-! ## Subscriber data model (definitive revision, part_001 lines 408-868) -/

/-- Subscriber termination codes (`Subscriber.C`). -/
def C_SUBSCRIBE_RESPONSE_TIMEOUT : Int := 0
def C_SUBSCRIBE_TRANSPORT_ERROR : Int := 1
def C_SUBSCRIBE_NON_OK_RESPONSE : Int := 2
def C_SUBSCRIBE_FAILED_AUTHENTICATION : Int := 3
def C_UNSUBSCRIBE_TIMEOUT : Int := 4
def C_RECEIVE_FINAL_NOTIFY : Int := 5
def C_RECEIVE_BAD_NOTIFY : Int := 6

/-- Parsed Event header (`request.parseHeader('Event')`):
event name plus optional `;id=` parameter. -/
structure EventHdr where
  event : String
  id : Option String
deriving Repr, DecidableEq

/-- Parsed Subscription-State header. -/
structure SubsStateHdr where
  state : String
  expires : Option Int
  reason : Option String
deriving Repr, DecidableEq

/-- An inbound request as seen by `Subscriber.receiveRequest`; header parses
are pre-applied, `none` standing for a missing or unparseable header. -/
structure SubRequest where
  method : String
  event : Option EventHdr
  subs_state : Option SubsStateHdr
  body : Option String
  content_type : Option String
deriving Repr, DecidableEq

/-- A SUBSCRIBE transaction response as seen by
`Subscriber.onReceiveResponse`. `expires` is the raw header string. -/
structure SubResponse where
  status_code : Int
  to_tag : String
  expires : Option String
  record_route : List String
deriving Repr, DecidableEq

/-- Subscriber instance state (underscore-prefixed JS fields keep their names
without the prefix).  Timers are `none` when not armed; an armed timer stores
its delay in milliseconds. -/
structure SubState where
  state : String
  event_name : String
  event_id : Option String
  content_type : Option String
  headers : List String
  call_id : String
  from_tag : String
  to_tag : Option String
  id : Option String
  cseq : Int
  route_set : Option (List String)
  expires_timer : Option ℚ
  expires_timestamp : Option Int
  send_unsubscribe : Bool
  unsubscribe_timeout_timer : Option Int
  is_first_notify_request : Bool
  is_terminated : Bool
deriving Repr, DecidableEq

/-- Constructor arguments of the Subscriber that the model keeps abstract
(random tags and tokens are parameters). -/
structure SubParams where
  event_name : String
  event_id : Option String
  expires : Option Int
  accept : String
  content_type : Option String
  extraHeaders : List String
  allow_events : Option String
  contact : String
  call_id : String
  from_tag : String
  cseq : Int
deriving Repr, DecidableEq

/-- The Subscriber constructor (part_001 lines 437-548): `expires` defaults to
900 only when absent (`expires !== 0 && !expires`), the Event header value is
rebuilt from the parsed name and optional id, and the header list is the
user's extra headers followed by Event, Expires, Accept, Contact and the
optional Allow-Events. -/
def mkSubscriber (p : SubParams) : SubState :=
  let expires := match p.expires with
    | some e => e
    | none => 900
  let event_value := p.event_name ++ (match p.event_id with
    | some i => ";id=" ++ i
    | none => "")
  let headers := p.extraHeaders ++
    ["Event: " ++ event_value,
     "Expires: " ++ toString expires,
     "Accept: " ++ p.accept,
     "Contact: " ++ p.contact] ++
    (match p.allow_events with
     | some a => ["Allow-Events: " ++ a]
     | none => [])
  { state := "init"
    event_name := p.event_name
    event_id := p.event_id
    content_type := p.content_type
    headers := headers
    call_id := p.call_id
    from_tag := p.from_tag
    to_tag := none
    id := none
    cseq := p.cseq
    route_set := none
    expires_timer := none
    expires_timestamp := none
    send_unsubscribe := false
    unsubscribe_timeout_timer := none
    is_first_notify_request := true
    is_terminated := false }

/-! ## Subscriber operations -/

/-- The refresh-delay formula shared by `_scheduleSubscribe` (part_001 lines
852-855) and `_calculateTimeoutMs` (part_001 lines 1298-1302):
`expires >= 140 ? expires*1000/2 + floor((expires/2 - 70)*1000*random()) :
expires*1000 - 5000`, in milliseconds. -/
def calculateTimeoutMs (expires : ℚ) (r : ℚ) : ℚ :=
  if expires ≥ 140 then
    expires * 1000 / 2 + ((Int.floor ((expires / 2 - 70) * 1000 * r) : Int) : ℚ)
  else expires * 1000 - 5000

/-- `Subscriber._dialogTerminated` (part_001 lines 820-843): idempotent on the
`_is_terminated` flag; sets state to terminated, clears both timers, destroys
the dialog when an id was established, and emits `terminated`. -/
def subDialogTerminated (s : SubState) (code : Int) (reason : Option String) :
    SubState × List Out :=
  if s.is_terminated then (s, [])
  else
    let s1 := { s with
      is_terminated := true
      state := "terminated"
      expires_timer := none
      unsubscribe_timeout_timer := none }
    (s1, (if s.id ≠ none then [Out.destroyDialog] else []) ++
         [Out.emitTerminatedS code reason])

/-- `Subscriber._send` (part_001 lines 845-850). -/
def subSend (s : SubState) (body : Option String) (headers : List String) :
    SubState × List Out :=
  ({ s with cseq := s.cseq + 1 }, [Out.sendRequest "SUBSCRIBE" headers body])

/-- `Subscriber._scheduleSubscribe` (part_001 lines 852-867): computes the
randomised timeout, sets the expiry timestamp and (re)arms the refresh
timer. -/
def subScheduleSubscribe (s : SubState) (expires : Int) (now : Int) (r : ℚ) :
    SubState :=
  { s with
    expires_timestamp := some (now + expires * 1000)
    expires_timer := some (calculateTimeoutMs (expires : ℚ) r) }

/-- `Subscriber.subscribe` (part_001 lines 745-765): moves init to
notify_wait, pushes Content-Type when a body is given (throwing when no
content type is configured), and sends the SUBSCRIBE. -/
def subSubscribe (s : SubState) (body : Option String) : SubState × List Out :=
  let s1 := if s.state = "init" then { s with state := "notify_wait" } else s
  if jsTruthyStr body then
    match s1.content_type with
    | none => (s1, [Out.threw])
    | some ct => subSend s1 body (s1.headers ++ ["Content-Type: " ++ ct])
  else subSend s1 body s1.headers

/-- `Subscriber.unsubscribe` (part_001 lines 771-799): guarded by
`_send_unsubscribe`; maps the stored headers replacing the Expires header by
`Expires: 0`, sends, and arms the 30000 ms unsubscribe timeout timer. -/
def subUnsubscribe (s : SubState) (body : Option String) : SubState × List Out :=
  if s.send_unsubscribe then (s, [])
  else
    let s1 := { s with send_unsubscribe := true }
    let headers := s1.headers.map (fun h =>
      if strStartsWith h "Expires" then "Expires: 0" else h)
    let r := subSend s1 body headers
    ({ r.1 with unsubscribe_timeout_timer := some 30000 }, r.2)

/-- First-2xx dialog binding of `Subscriber.onReceiveResponse` (part_001
lines 573-587): when `this._params.to_tag` is still null, capture the to-tag,
form the dialog id `call_id ++ from_tag ++ to_tag` and keep the reversed
Record-Route list when non-empty. -/
def subBindDialog (s : SubState) (resp : SubResponse) : SubState :=
  if s.to_tag = none then
    let rs := resp.record_route.reverse
    { s with
      to_tag := some resp.to_tag
      id := some (s.call_id ++ s.from_tag ++ resp.to_tag)
      route_set := if rs.length > 0 then some rs else s.route_set }
  else s

/-- `Subscriber.onReceiveResponse` (part_001 lines 568-616): on a 2xx, bind
the dialog on the first response, default a missing or empty Expires header to
the string "900", parse it and schedule a refresh when positive; 401/407 and
other non-2xx responses terminate. -/
def subOnReceiveResponse (s : SubState) (resp : SubResponse) (now : Int) (r : ℚ) :
    SubState × List Out :=
  if 200 ≤ resp.status_code ∧ resp.status_code < 300 then
    let s1 := subBindDialog s resp
    let o1 := if s.to_tag = none then [Out.newDialog] else []
    let expires_value := match resp.expires with
      | none => "900"
      | some v => if v = "" then "900" else v
    let expires := parseIntJS expires_value
    let s2 := match expires with
      | some e => if e > 0 then subScheduleSubscribe s1 e now r else s1
      | none => s1
    (s2, o1)
  else if resp.status_code = 401 ∨ resp.status_code = 407 then
    subDialogTerminated s C_SUBSCRIBE_FAILED_AUTHENTICATION none
  else if resp.status_code ≥ 300 then
    subDialogTerminated s C_SUBSCRIBE_NON_OK_RESPONSE none
  else (s, [])

/-- State adoption of `Subscriber.receiveRequest` (part_001 lines 675-696):
when neither the previous nor the new Subscription-State is terminated, adopt
the new state, and when the header carries an expires whose deadline undercuts
the current `expires_timestamp` by more than 2000 ms, reschedule the refresh
to the earlier deadline. -/
def subAdoptState (s1 : SubState) (prev_state new_state : String)
    (hdrExpires : Option Int) (now : Int) (r : ℚ) : SubState :=
  if prev_state ≠ "terminated" ∧ new_state ≠ "terminated" then
    let s2a := { s1 with state := new_state }
    match hdrExpires with
    | some e =>
        let ets := now + e * 1000
        if s2a.expires_timestamp.getD 0 - ets > 2000 then
          subScheduleSubscribe s2a e now r
        else s2a
    | none => s2a
  else s1

/-- `Subscriber.receiveRequest` (part_001 lines 621-735): non-NOTIFY gets 405;
a missing or unparseable Event header gets 400 and RECEIVE_BAD_NOTIFY; a
mismatched (name, id) gets 489 and RECEIVE_BAD_NOTIFY; a missing
Subscription-State gets 400 and RECEIVE_BAD_NOTIFY; otherwise reply 200,
adopt a non-terminated state, reschedule on a shorter expires, emit `active`
on entering active, emit `notify` when a body is present, and terminate with
RECEIVE_FINAL_NOTIFY on a terminated Subscription-State. -/
def subReceiveRequest (s : SubState) (req : SubRequest) (now : Int) (r : ℚ) :
    SubState × List Out :=
  if req.method ≠ "NOTIFY" then (s, [Out.reply 405 []])
  else match req.event with
  | none =>
      let r1 := subDialogTerminated s C_RECEIVE_BAD_NOTIFY none
      (r1.1, Out.reply 400 [] :: r1.2)
  | some ev =>
      if ev.event ≠ s.event_name ∨ ev.id ≠ s.event_id then
        let r1 := subDialogTerminated s C_RECEIVE_BAD_NOTIFY none
        (r1.1, Out.reply 489 [] :: r1.2)
      else match req.subs_state with
      | none =>
          let r1 := subDialogTerminated s C_RECEIVE_BAD_NOTIFY none
          (r1.1, Out.reply 400 [] :: r1.2)
      | some hdr =>
          let s1 := { s with is_first_notify_request := false }
          let new_state := strToLower hdr.state
          let prev_state := s.state
          let s2 := subAdoptState s1 prev_state new_state hdr.expires now r
          let o_active :=
            if prev_state ≠ "active" ∧ new_state = "active" then [Out.emitActive]
            else []
          let is_final := new_state = "terminated"
          let reason := if is_final then none else hdr.reason
          let o_notify :=
            if jsTruthyStr req.body then
              [Out.emitNotify is_final (req.body.getD "") req.content_type]
            else []
          if is_final then
            let r3 := subDialogTerminated s2 C_RECEIVE_FINAL_NOTIFY reason
            (r3.1, Out.reply 200 [] :: (o_active ++ o_notify ++ r3.2))
          else (s2, Out.reply 200 [] :: (o_active ++ o_notify))

/-- Fire of the refresh timer armed by `_scheduleSubscribe` (part_001 lines
861-866): clears the handle and re-sends a SUBSCRIBE with the stored headers.
A cleared (unarmed) timer never fires. -/
def subRefreshTimerFire (s : SubState) : SubState × List Out :=
  match s.expires_timer with
  | none => (s, [])
  | some _ =>
      subSend { s with expires_timer := none } none s.headers

/-- Fire of the 30 s unsubscribe timeout timer (part_001 lines 795-798):
terminates with UNSUBSCRIBE_TIMEOUT. -/
def subUnsubscribeTimerFire (s : SubState) : SubState × List Out :=
  match s.unsubscribe_timeout_timer with
  | none => (s, [])
  | some _ =>
      subDialogTerminated { s with unsubscribe_timeout_timer := none }
        C_UNSUBSCRIBE_TIMEOUT none

/-- One input to a Subscriber instance: a user call, an inbound request, a
transaction callback or a timer fire.  `now` and `r` stand for
`new Date().getTime()` and `Math.random()` at that instant. -/
inductive SubInput where
  | subscribeCall (body : Option String)
  | unsubscribeCall (body : Option String)
  | receiveRequest (req : SubRequest) (now : Int) (r : ℚ)
  | receiveResponse (resp : SubResponse) (now : Int) (r : ℚ)
  | requestTimeout
  | transportError
  | authenticated
  | refreshTimerFire
  | unsubscribeTimerFire
deriving Repr, DecidableEq

/-- Dispatch one input to the Subscriber (part_001 lines 553-867). -/
def subStep (s : SubState) (i : SubInput) : SubState × List Out :=
  match i with
  | SubInput.subscribeCall body => subSubscribe s body
  | SubInput.unsubscribeCall body => subUnsubscribe s body
  | SubInput.receiveRequest req now r => subReceiveRequest s req now r
  | SubInput.receiveResponse resp now r => subOnReceiveResponse s resp now r
  | SubInput.requestTimeout => subDialogTerminated s C_SUBSCRIBE_RESPONSE_TIMEOUT none
  | SubInput.transportError => subDialogTerminated s C_SUBSCRIBE_TRANSPORT_ERROR none
  | SubInput.authenticated => ({ s with cseq := s.cseq + 1 }, [])
  | SubInput.refreshTimerFire => subRefreshTimerFire s
  | SubInput.unsubscribeTimerFire => subUnsubscribeTimerFire s

/-- Run a Subscriber over a list of inputs, concatenating the outputs. -/
def subRun (s : SubState) : List SubInput → SubState × List Out
  | [] => (s, [])
  | i :: is =>
      let r1 := subStep s i
      let r2 := subRun r1.1 is
      (r2.1, r1.2 ++ r2.2)

/-! ## Notifier data model (definitive revision, src/lib/Notifier.js lines 379-750) -/

/-- Notifier termination codes (`Notifier.C`). -/
def C_NOTIFY_RESPONSE_TIMEOUT : Int := 0
def C_NOTIFY_TRANSPORT_ERROR : Int := 1
def C_NOTIFY_NON_OK_RESPONSE : Int := 2
def C_NOTIFY_FAILED_AUTHENTICATION : Int := 3
def C_SEND_FINAL_NOTIFY : Int := 4
def C_RECEIVE_UNSUBSCRIBE : Int := 5
def C_SUBSCRIPTION_EXPIRED : Int := 6

/-- Notifier states (`Notifier.C.STATE_*`), integer tagged. -/
def STATE_PENDING : Int := 0
def STATE_ACTIVE : Int := 1
def STATE_TERMINATED : Int := 2

/-- An inbound request as seen by `Notifier.receiveRequest`.  `expires` is the
raw Expires header string (`none` when the header is absent, so that
`hasHeader`/`getHeader` agree). -/
structure NtfRequest where
  method : String
  event : Option String
  expires : Option String
  body : Option String
  content_type : Option String
deriving Repr, DecidableEq

/-- Notifier instance state.  `dialog` is true while `this._dialog` is
non-null; `expires_timer_armed`/`expires_timer_delay` model the pending
`setTimeout` handle and its delay (`none` delay models a NaN delay). -/
structure NtfState where
  state : Int
  dialog : Bool
  expires : JsVal
  expires_timestamp : Option Int
  expires_timer_armed : Bool
  expires_timer_delay : Option Int
  terminated_reason : Option String
  terminated_retry_after : Option Int
  headers : List String
  content_type : String
  contact : String
  initial_subscribe : NtfRequest
deriving Repr, DecidableEq

/-- `Notifier._setExpiresTimer` (Notifier.js lines 722-738): records
`now + this._expires * 1000` and (re)arms the one-shot expiry timer with
delay `this._expires * 1000` (with JavaScript numeric coercion of the stored
string-or-number). -/
def ntfSetExpiresTimer (s : NtfState) (now : Int) : NtfState :=
  { s with
    expires_timestamp := (jsMulNum s.expires 1000).map (fun d => now + d)
    expires_timer_armed := true
    expires_timer_delay := jsMulNum s.expires 1000 }

/-- Constructor arguments of the Notifier kept by the model (`ua._contact` is
the string used when no Contact is given in `extraHeaders`). -/
structure NtfParams where
  subscribe : NtfRequest
  contentType : String
  extraHeaders : List String
  allowEvents : Option String
  uaContact : String
  pending : Bool
  now : Int
deriving Repr, DecidableEq

/-- The Notifier constructor (Notifier.js lines 433-507): state is pending or
active, `_expires` is `parseInt` of the initial SUBSCRIBE's Expires header
(NaN when absent), headers are the extra headers plus Event, a found-or-built
Contact and the optional Allow-Events, the server dialog is created, and the
expiry timer is armed only when the parsed expires is positive. -/
def mkNotifier (p : NtfParams) : NtfState :=
  let expires := match p.subscribe.expires with
    | some v => parseIntJsVal v
    | none => JsVal.jnan
  let headers0 := p.extraHeaders ++
    ["Event: " ++ (p.subscribe.event.getD "undefined")]
  let contact := match headers0.find? (fun h => strStartsWith h "Contact") with
    | some c => c
    | none => "Contact: " ++ p.uaContact
  let headers1 := match headers0.find? (fun h => strStartsWith h "Contact") with
    | some _ => headers0
    | none => headers0 ++ [contact]
  let headers2 := headers1 ++ (match p.allowEvents with
    | some a => ["Allow-Events: " ++ a]
    | none => [])
  let s0 : NtfState :=
    { state := if p.pending then STATE_PENDING else STATE_ACTIVE
      dialog := true
      expires := expires
      expires_timestamp := none
      expires_timer_armed := false
      expires_timer_delay := none
      terminated_reason := none
      terminated_retry_after := none
      headers := headers2
      content_type := p.contentType
      contact := contact
      initial_subscribe := p.subscribe }
  if jsGtZero expires then ntfSetExpiresTimer s0 p.now else s0

/-! ## Notifier operations -/

/-- `Notifier._dialogTerminated` (Notifier.js lines 700-720): idempotent on
the null dialog; sets the terminated state, clears the expiry timer,
terminates and drops the dialog, and emits `terminated` with
`send_final_notify = (termination_code === C.SUBSCRIPTION_EXPIRED)`. -/
def ntfDialogTerminated (s : NtfState) (termination_code : Int) :
    NtfState × List Out :=
  if !s.dialog then (s, [])
  else
    ({ s with state := STATE_TERMINATED, expires_timer_armed := false, dialog := false },
     [Out.dialogTerminate,
      Out.emitTerminatedN termination_code (termination_code == C_SUBSCRIPTION_EXPIRED)])

/-- `Notifier._stateNumberToString` (Notifier.js lines 740-749); `none` models
the thrown TypeError on an unknown tag. -/
def ntfStateNumberToString (state : Int) : Option String :=
  if state = STATE_PENDING then some "pending"
  else if state = STATE_ACTIVE then some "active"
  else if state = STATE_TERMINATED then some "terminated"
  else none

/-- `Notifier.notify` (Notifier.js lines 584-659): a no-op once the dialog is
null (final NOTIFY already sent); otherwise composes Subscription-State as
`<state>;expires=<remaining>` when not terminated, else
`terminated[;reason=R][;retry-after=N]`, appends Content-Type when a body is
given, and dispatches the NOTIFY through the dialog. -/
def ntfNotify (s : NtfState) (body : Option String) (now : Int) :
    NtfState × List Out :=
  if !s.dialog then (s, [])
  else match ntfStateNumberToString s.state with
  | none => (s, [Out.threw])
  | some base =>
      let subs_state :=
        if s.state ≠ STATE_TERMINATED then
          let e0 := Int.fdiv (s.expires_timestamp.getD 0 - now) 1000
          let e := if e0 < 0 then 0 else e0
          base ++ ";expires=" ++ toString e
        else
          base ++
          (if jsTruthyStr s.terminated_reason then
            ";reason=" ++ s.terminated_reason.getD "" else "") ++
          (match s.terminated_retry_after with
           | some n => ";retry-after=" ++ toString n
           | none => "")
      let hs := s.headers ++ ["Subscription-State: " ++ subs_state] ++
        (if jsTruthyStr body then ["Content-Type: " ++ s.content_type] else [])
      (s, [Out.sendRequest "NOTIFY" hs body])

/-- `Notifier.receiveRequest` (Notifier.js lines 514-552): non-SUBSCRIBE gets
405; `this._expires` is set to the raw Expires header string when present
(note: without `parseInt`) or the number 900 when absent; reply 200 with
Expires and Contact; `is_unsubscribe` is the strict comparison
`this._expires === 0`; when not unsubscribing the expiry timer is rearmed;
`subscribe` is emitted, and an unsubscribe then terminates with
RECEIVE_UNSUBSCRIBE. -/
def ntfReceiveRequest (s : NtfState) (req : NtfRequest) (now : Int) :
    NtfState × List Out :=
  if req.method ≠ "SUBSCRIBE" then (s, [Out.reply 405 []])
  else
    let e : JsVal := match req.expires with
      | some v => JsVal.jstr v
      | none => JsVal.jnum 900
    let s1 := { s with expires := e }
    let o1 := [Out.reply 200 ["Expires: " ++ jsValToString e, s1.contact]]
    let is_unsubscribe := jsStrictEqNum e 0
    let s2 := if !is_unsubscribe then ntfSetExpiresTimer s1 now else s1
    let o2 := [Out.emitSubscribe is_unsubscribe req.body req.content_type]
    if is_unsubscribe then
      let r3 := ntfDialogTerminated s2 C_RECEIVE_UNSUBSCRIBE
      (r3.1, o1 ++ o2 ++ r3.2)
    else (s2, o1 ++ o2)

/-- `Notifier.terminate` (Notifier.js lines 668-679): sets the terminated
state and the reason/retry-after, sends the final NOTIFY via `notify(body)`,
then terminates with SEND_FINAL_NOTIFY. -/
def ntfTerminate (s : NtfState) (body : Option String) (reason : Option String)
    (retryAfter : Option Int) (now : Int) : NtfState × List Out :=
  let s1 := { s with
    state := STATE_TERMINATED
    terminated_reason := reason
    terminated_retry_after := retryAfter }
  let r2 := ntfNotify s1 body now
  let r3 := ntfDialogTerminated r2.1 C_SEND_FINAL_NOTIFY
  (r3.1, r2.2 ++ r3.2)

/-- Fire of the expiry timer armed by `_setExpiresTimer` (Notifier.js lines
727-737): a no-op when the dialog is already null; otherwise sets
reason `timeout`, sends a NOTIFY and terminates with SUBSCRIPTION_EXPIRED.
A cleared (unarmed) timer never fires. -/
def ntfExpiresTimerFire (s : NtfState) (now : Int) : NtfState × List Out :=
  if !s.expires_timer_armed then (s, [])
  else
    let s0 := { s with expires_timer_armed := false }
    if !s0.dialog then (s0, [])
    else
      let s1 := { s0 with terminated_reason := some "timeout" }
      let r2 := ntfNotify s1 none now
      let r3 := ntfDialogTerminated r2.1 C_SUBSCRIPTION_EXPIRED
      (r3.1, r2.2 ++ r3.2)

/-- `Notifier.setActiveState` (Notifier.js lines 570-578). -/
def ntfSetActiveState (s : NtfState) : NtfState :=
  if s.state = STATE_PENDING then { s with state := STATE_ACTIVE } else s

/-- One input to a Notifier instance: a user call, an inbound request, a
NOTIFY transaction callback or the expiry timer fire. -/
inductive NtfInput where
  | start (now : Int)
  | setActiveState
  | notifyCall (body : Option String) (now : Int)
  | terminateCall (body : Option String) (reason : Option String)
      (retryAfter : Option Int) (now : Int)
  | receiveRequest (req : NtfRequest) (now : Int)
  | expiresTimerFire (now : Int)
  | requestTimeout
  | transportError
  | errorResponse (status_code : Int)
  | dialogError
deriving Repr, DecidableEq

/-- Dispatch one input to the Notifier (Notifier.js lines 514-738).
`start()` re-enters `receiveRequest` with the captured initial SUBSCRIBE; the
transaction callbacks are the `eventHandlers` closures of `notify`. -/
def ntfStep (s : NtfState) (i : NtfInput) : NtfState × List Out :=
  match i with
  | NtfInput.start now => ntfReceiveRequest s s.initial_subscribe now
  | NtfInput.setActiveState => (ntfSetActiveState s, [])
  | NtfInput.notifyCall body now => ntfNotify s body now
  | NtfInput.terminateCall body reason retryAfter now =>
      ntfTerminate s body reason retryAfter now
  | NtfInput.receiveRequest req now => ntfReceiveRequest s req now
  | NtfInput.expiresTimerFire now => ntfExpiresTimerFire s now
  | NtfInput.requestTimeout => ntfDialogTerminated s C_NOTIFY_RESPONSE_TIMEOUT
  | NtfInput.transportError => ntfDialogTerminated s C_NOTIFY_TRANSPORT_ERROR
  | NtfInput.errorResponse status_code =>
      if status_code = 401 ∨ status_code = 407 then
        ntfDialogTerminated s C_NOTIFY_FAILED_AUTHENTICATION
      else ntfDialogTerminated s C_NOTIFY_NON_OK_RESPONSE
  | NtfInput.dialogError => ntfDialogTerminated s C_NOTIFY_NON_OK_RESPONSE

/-- Run a Notifier over a list of inputs, concatenating the outputs. -/
def ntfRun (s : NtfState) : List NtfInput → NtfState × List Out
  | [] => (s, [])
  | i :: is =>
      let r1 := ntfStep s i
      let r2 := ntfRun r1.1 is
      (r2.1, r1.2 ++ r2.2)

/-! ## Concrete fixtures (used by witnesses and counterexamples) -/

/-- Sample Subscriber construction (values from the repository test). -/
def sampleSubParams : SubParams :=
  { event_name := "weather"
    event_id := none
    expires := some 3600
    accept := "application/text, text/plain"
    content_type := some "text/plain"
    extraHeaders := []
    allow_events := none
    contact := "<sip:s@x.invalid;transport=ws>"
    call_id := "cid"
    from_tag := "ft"
    cseq := 1 }

/-- Sample Subscriber instance, as freshly constructed. -/
def sampleSubscriber : SubState := mkSubscriber sampleSubParams

/-- Sample Subscriber in the active state. -/
def sampleSubscriberActive : SubState := { sampleSubscriber with state := "active" }

/-- Sample initial SUBSCRIBE for the Notifier. -/
def sampleNtfSubscribe : NtfRequest :=
  { method := "SUBSCRIBE"
    event := some "weather"
    expires := some "3600"
    body := some "Please report the weather condition"
    content_type := some "text/plain" }

/-- Sample Notifier construction. -/
def sampleNtfParams : NtfParams :=
  { subscribe := sampleNtfSubscribe
    contentType := "text/plain"
    extraHeaders := []
    allowEvents := none
    uaContact := "<sip:ikq@abcdefabcdef.invalid;transport=ws>"
    pending := false
    now := 0 }

/-- Sample Notifier instance, as freshly constructed. -/
def sampleNotifier : NtfState := mkNotifier sampleNtfParams

/-- An unsubscribe request: SUBSCRIBE with the Expires header string "0". -/
def unsubNtfRequest : NtfRequest :=
  { method := "SUBSCRIBE"
    event := some "weather"
    expires := some "0"
    body := some "bye"
    content_type := some "text/plain" }

/-- A SUBSCRIBE without an Expires header. -/
def noExpiresNtfRequest : NtfRequest :=
  { method := "SUBSCRIBE"
    event := some "weather"
    expires := none
    body := none
    content_type := none }

/-- A request with a non-SUBSCRIBE method. -/
def badMethodNtfRequest : NtfRequest :=
  { method := "OPTIONS"
    event := none
    expires := none
    body := none
    content_type := none }

/-- A NOTIFY whose Event header fails to parse
(`request.parseHeader('Event')` falsy). -/
def badEventSubRequest : SubRequest :=
  { method := "NOTIFY"
    event := none
    subs_state := some { state := "active", expires := none, reason := none }
    body := none
    content_type := none }

/-- A NOTIFY whose Event header parses but names a different event package
than the SUBSCRIBE's (`weather` vs `presence`). -/
def mismatchEventSubRequest : SubRequest :=
  { method := "NOTIFY"
    event := some { event := "presence", id := none }
    subs_state := some { state := "active", expires := none, reason := none }
    body := none
    content_type := none }

/-- A well-formed final NOTIFY header set for the sample subscription. -/
def finalSubsStateHdr : SubsStateHdr :=
  { state := "terminated", expires := none, reason := none }

/-- Input sequence driving the late-2xx zombie-refresh scenario: a first
SUBSCRIBE, an overlapping refresh SUBSCRIBE, a 500 response terminating the
subscription, then a delayed 200 with Expires 3600 to the second
transaction. -/
def lateResponseInputs : List SubInput :=
  [SubInput.subscribeCall none,
   SubInput.subscribeCall none,
   SubInput.receiveResponse
     { status_code := 500, to_tag := "", expires := none, record_route := [] } 0 0,
   SubInput.receiveResponse
     { status_code := 200, to_tag := "tt", expires := some "3600", record_route := [] } 10 0]

/-- Potential used for the at-most-once argument: 1 while the subscriber can
still emit `terminated`, 0 afterwards. -/
def subPotential (s : SubState) : Nat := if s.is_terminated then 0 else 1

/-- Potential for the notifier: 1 while the dialog is attached. -/
def ntfPotential (s : NtfState) : Nat := if s.dialog then 1 else 0

/-! ## Trace lemmas -/

theorem countTerminated_append (a b : List Out) :
    countTerminated (a ++ b) = countTerminated a + countTerminated b := by
  simp [countTerminated, List.countP_append]

theorem subDialogTerminated_pot (s : SubState) (c : Int) (re : Option String) :
    countTerminated (subDialogTerminated s c re).2 +
      subPotential (subDialogTerminated s c re).1 ≤ subPotential s := by
  unfold subDialogTerminated subPotential
  split
  · simp_all [countTerminated]
  · by_cases h : s.id = none <;>
      simp_all [countTerminated, List.countP_append, List.countP_cons]

theorem subScheduleSubscribe_is_terminated (s : SubState) (e now : Int) (r : ℚ) :
    (subScheduleSubscribe s e now r).is_terminated = s.is_terminated := by
  simp [subScheduleSubscribe]

theorem subSubscribe_pot (s : SubState) (b : Option String) :
    countTerminated (subSubscribe s b).2 = 0 ∧
      (subSubscribe s b).1.is_terminated = s.is_terminated := by
  unfold subSubscribe subSend
  by_cases hb : jsTruthyStr b = true
  · simp only [hb, if_true]
    split <;> split <;> simp_all [countTerminated]
  · simp only [Bool.not_eq_true] at hb
    simp only [hb, Bool.false_eq_true, if_false]
    split <;> simp_all [countTerminated]

theorem subUnsubscribe_pot (s : SubState) (b : Option String) :
    countTerminated (subUnsubscribe s b).2 = 0 ∧
      (subUnsubscribe s b).1.is_terminated = s.is_terminated := by
  unfold subUnsubscribe subSend
  split <;> simp_all [countTerminated]

theorem subBindDialog_is_terminated (s : SubState) (resp : SubResponse) :
    (subBindDialog s resp).is_terminated = s.is_terminated := by
  unfold subBindDialog
  split <;> rfl

theorem subOnReceiveResponse_pot (s : SubState) (resp : SubResponse) (now : Int) (r : ℚ) :
    countTerminated (subOnReceiveResponse s resp now r).2 +
      subPotential (subOnReceiveResponse s resp now r).1 ≤ subPotential s := by
  unfold subOnReceiveResponse
  split
  · have hc : countTerminated (if s.to_tag = none then [Out.newDialog] else []) = 0 := by
      split <;> simp [countTerminated]
    have hterm :
        (match parseIntJS (match resp.expires with
          | none => "900"
          | some v => if v = "" then "900" else v) with
          | some e => if e > 0 then subScheduleSubscribe (subBindDialog s resp) e now r
                      else subBindDialog s resp
          | none => subBindDialog s resp).is_terminated = s.is_terminated := by
      split
      · split
        · simp [subScheduleSubscribe, subBindDialog_is_terminated]
        · exact subBindDialog_is_terminated s resp
      · exact subBindDialog_is_terminated s resp
    simp only [hc, subPotential, hterm]
    omega
  · split
    · exact subDialogTerminated_pot s _ none
    · split
      · exact subDialogTerminated_pot s _ none
      · simp [countTerminated, subPotential]

theorem subAdoptState_is_terminated (s1 : SubState) (p n : String)
    (he : Option Int) (now : Int) (r : ℚ) :
    (subAdoptState s1 p n he now r).is_terminated = s1.is_terminated := by
  unfold subAdoptState subScheduleSubscribe
  dsimp only
  repeat' split
  all_goals rfl

theorem subReceiveRequest_pot (s : SubState) (req : SubRequest) (now : Int) (r : ℚ) :
    countTerminated (subReceiveRequest s req now r).2 +
      subPotential (subReceiveRequest s req now r).1 ≤ subPotential s := by
  unfold subReceiveRequest
  split
  · simp [countTerminated, subPotential]
  · split
    · have h := subDialogTerminated_pot s C_RECEIVE_BAD_NOTIFY none
      simpa [countTerminated, List.countP_cons] using h
    · split
      · have h := subDialogTerminated_pot s C_RECEIVE_BAD_NOTIFY none
        simpa [countTerminated, List.countP_cons] using h
      · split
        · have h := subDialogTerminated_pot s C_RECEIVE_BAD_NOTIFY none
          simpa [countTerminated, List.countP_cons] using h
        · rename_i hdr heq
          dsimp only
          have hterm :
              (subAdoptState { s with is_first_notify_request := false }
                s.state (strToLower hdr.state) hdr.expires now r).is_terminated =
                s.is_terminated := by
            rw [subAdoptState_is_terminated]
          have hpots : subPotential (subAdoptState { s with is_first_notify_request := false }
              s.state (strToLower hdr.state) hdr.expires now r) = subPotential s := by
            simp [subPotential, hterm]
          have hcA : countTerminated
              (if s.state ≠ "active" ∧ strToLower hdr.state = "active"
               then [Out.emitActive] else []) = 0 := by
            split <;> simp [countTerminated]
          have hcN : ∀ f : Bool, countTerminated
              (if jsTruthyStr req.body = true
               then [Out.emitNotify f (req.body.getD "") req.content_type] else []) = 0 := by
            intro f; split <;> simp [countTerminated]
          simp only [countTerminated] at hcA hcN
          split
          · have h := subDialogTerminated_pot
              (subAdoptState { s with is_first_notify_request := false }
                s.state (strToLower hdr.state) hdr.expires now r) C_RECEIVE_FINAL_NOTIFY none
            rw [hpots] at h
            simp only [countTerminated, List.countP_cons, List.countP_append,
              hcA, hcN, Bool.false_eq_true, if_false] at h ⊢
            omega
          · simp only [countTerminated, List.countP_cons, List.countP_append,
              hcA, hcN, hpots]
            simp

theorem subRefreshTimerFire_pot (s : SubState) :
    countTerminated (subRefreshTimerFire s).2 = 0 ∧
      (subRefreshTimerFire s).1.is_terminated = s.is_terminated := by
  unfold subRefreshTimerFire subSend
  split <;> simp [countTerminated]

theorem subUnsubscribeTimerFire_pot (s : SubState) :
    countTerminated (subUnsubscribeTimerFire s).2 +
      subPotential (subUnsubscribeTimerFire s).1 ≤ subPotential s := by
  unfold subUnsubscribeTimerFire
  split
  · simp [countTerminated]
  · exact subDialogTerminated_pot { s with unsubscribe_timeout_timer := none }
      C_UNSUBSCRIBE_TIMEOUT none

theorem subStep_pot (s : SubState) (i : SubInput) :
    countTerminated (subStep s i).2 + subPotential (subStep s i).1 ≤ subPotential s := by
  have hpot : ∀ t : SubState, t.is_terminated = s.is_terminated →
      subPotential t = subPotential s := by
    intro t ht; simp [subPotential, ht]
  cases i with
  | subscribeCall body =>
      have h := subSubscribe_pot s body
      simp only [subStep, h.1, hpot _ h.2, Nat.zero_add, le_refl]
  | unsubscribeCall body =>
      have h := subUnsubscribe_pot s body
      simp only [subStep, h.1, hpot _ h.2, Nat.zero_add, le_refl]
  | receiveRequest req now r => exact subReceiveRequest_pot s req now r
  | receiveResponse resp now r => exact subOnReceiveResponse_pot s resp now r
  | requestTimeout => exact subDialogTerminated_pot s C_SUBSCRIBE_RESPONSE_TIMEOUT none
  | transportError => exact subDialogTerminated_pot s C_SUBSCRIBE_TRANSPORT_ERROR none
  | authenticated => simp [subStep, countTerminated, subPotential]
  | refreshTimerFire =>
      have h := subRefreshTimerFire_pot s
      simp only [subStep, h.1, hpot _ h.2, Nat.zero_add, le_refl]
  | unsubscribeTimerFire => exact subUnsubscribeTimerFire_pot s

theorem subRun_pot (l : List SubInput) :
    ∀ s : SubState, countTerminated (subRun s l).2 + subPotential (subRun s l).1 ≤
      subPotential s := by
  induction l with
  | nil => intro s; simp [subRun, countTerminated]
  | cons i is ih =>
      intro s
      have h1 := subStep_pot s i
      have h2 := ih (subStep s i).1
      simp only [subRun, countTerminated_append]
      omega

theorem ntfDialogTerminated_pot (s : NtfState) (c : Int) :
    countTerminated (ntfDialogTerminated s c).2 +
      ntfPotential (ntfDialogTerminated s c).1 ≤ ntfPotential s := by
  unfold ntfDialogTerminated ntfPotential
  split <;> simp_all [countTerminated]

theorem ntfNotify_state (s : NtfState) (body : Option String) (now : Int) :
    (ntfNotify s body now).1 = s := by
  unfold ntfNotify
  repeat' split
  all_goals rfl

theorem ntfNotify_countTerminated (s : NtfState) (body : Option String) (now : Int) :
    countTerminated (ntfNotify s body now).2 = 0 := by
  unfold ntfNotify
  repeat' split
  all_goals simp [countTerminated]

theorem ntfSetExpiresTimer_dialog (s : NtfState) (now : Int) :
    (ntfSetExpiresTimer s now).dialog = s.dialog := by
  simp [ntfSetExpiresTimer]

theorem ntfReceiveRequest_pot (s : NtfState) (req : NtfRequest) (now : Int) :
    countTerminated (ntfReceiveRequest s req now).2 +
      ntfPotential (ntfReceiveRequest s req now).1 ≤ ntfPotential s := by
  unfold ntfReceiveRequest
  split
  · simp [countTerminated]
  · dsimp only
    generalize (match req.expires with
      | some v => JsVal.jstr v
      | none => JsVal.jnum 900) = e
    split
    · rename_i h
      simp only [h, Bool.not_true, Bool.false_eq_true, if_false]
      have hdt := ntfDialogTerminated_pot { s with expires := e } C_RECEIVE_UNSUBSCRIBE
      have hp : ntfPotential { s with expires := e } = ntfPotential s := rfl
      rw [hp] at hdt
      simp only [countTerminated, List.countP_cons, List.countP_append,
        List.countP_nil, Bool.false_eq_true, if_false] at hdt ⊢
      omega
    · rename_i h
      rw [Bool.not_eq_true] at h
      simp only [h, Bool.not_false, if_true]
      have hp : ntfPotential (ntfSetExpiresTimer { s with expires := e } now) =
          ntfPotential s := rfl
      simp only [countTerminated, List.countP_cons, List.countP_append,
        List.countP_nil, Bool.false_eq_true, if_false, hp]
      omega

theorem ntfDT_chain (s t : NtfState) (c : Int) (pre : List Out)
    (hpre : countTerminated pre = 0) (hd : t.dialog = s.dialog) :
    countTerminated (pre ++ (ntfDialogTerminated t c).2) +
      ntfPotential (ntfDialogTerminated t c).1 ≤ ntfPotential s := by
  have hdt := ntfDialogTerminated_pot t c
  have hp : ntfPotential t = ntfPotential s := by simp [ntfPotential, hd]
  rw [hp] at hdt
  rw [countTerminated_append, hpre]
  omega

theorem ntfTerminate_pot (s : NtfState) (body reason : Option String)
    (retryAfter : Option Int) (now : Int) :
    countTerminated (ntfTerminate s body reason retryAfter now).2 +
      ntfPotential (ntfTerminate s body reason retryAfter now).1 ≤ ntfPotential s := by
  unfold ntfTerminate
  dsimp only
  rw [ntfNotify_state]
  exact ntfDT_chain s _ C_SEND_FINAL_NOTIFY _ (ntfNotify_countTerminated _ _ _) rfl

theorem ntfExpiresTimerFire_pot (s : NtfState) (now : Int) :
    countTerminated (ntfExpiresTimerFire s now).2 +
      ntfPotential (ntfExpiresTimerFire s now).1 ≤ ntfPotential s := by
  unfold ntfExpiresTimerFire
  split
  · simp [countTerminated]
  · dsimp only
    split
    · have hp : ntfPotential { s with expires_timer_armed := false } = ntfPotential s := rfl
      simp [countTerminated, hp]
    · rw [ntfNotify_state]
      exact ntfDT_chain s _ C_SUBSCRIPTION_EXPIRED _ (ntfNotify_countTerminated _ _ _) rfl

theorem ntfStep_pot (s : NtfState) (i : NtfInput) :
    countTerminated (ntfStep s i).2 + ntfPotential (ntfStep s i).1 ≤ ntfPotential s := by
  cases i with
  | start now => exact ntfReceiveRequest_pot s s.initial_subscribe now
  | setActiveState =>
      have hp : ntfPotential (ntfSetActiveState s) = ntfPotential s := by
        unfold ntfSetActiveState ntfPotential
        split <;> rfl
      simp [ntfStep, countTerminated, hp]
  | notifyCall body now =>
      simp only [ntfStep]
      rw [ntfNotify_state, ntfNotify_countTerminated]
      simp
  | terminateCall body reason retryAfter now => exact ntfTerminate_pot s body reason retryAfter now
  | receiveRequest req now => exact ntfReceiveRequest_pot s req now
  | expiresTimerFire now => exact ntfExpiresTimerFire_pot s now
  | requestTimeout => exact ntfDialogTerminated_pot s C_NOTIFY_RESPONSE_TIMEOUT
  | transportError => exact ntfDialogTerminated_pot s C_NOTIFY_TRANSPORT_ERROR
  | errorResponse status_code =>
      simp only [ntfStep]
      split
      · exact ntfDialogTerminated_pot s C_NOTIFY_FAILED_AUTHENTICATION
      · exact ntfDialogTerminated_pot s C_NOTIFY_NON_OK_RESPONSE
  | dialogError => exact ntfDialogTerminated_pot s C_NOTIFY_NON_OK_RESPONSE

theorem ntfRun_pot (l : List NtfInput) :
    ∀ s : NtfState, countTerminated (ntfRun s l).2 + ntfPotential (ntfRun s l).1 ≤
      ntfPotential s := by
  induction l with
  | nil => intro s; simp [ntfRun, countTerminated]
  | cons i is ih =>
      intro s
      have h1 := ntfStep_pot s i
      have h2 := ih (ntfStep s i).1
      simp only [ntfRun, countTerminated_append]
      omega

/-- All `terminated` events of a notifier trace carry
`send_final_notify = (code === SUBSCRIPTION_EXPIRED)`. -/
def ntfFlagOk (l : List Out) : Prop :=
  ∀ c b, Out.emitTerminatedN c b ∈ l → b = (c == C_SUBSCRIPTION_EXPIRED)

theorem ntfFlagOk_nil : ntfFlagOk [] := by
  intro c b h
  simp at h

theorem ntfFlagOk_append {a b : List Out} (ha : ntfFlagOk a) (hb : ntfFlagOk b) :
    ntfFlagOk (a ++ b) := by
  intro c bb h
  rcases List.mem_append.mp h with h1 | h2
  · exact ha c bb h1
  · exact hb c bb h2

theorem ntfDialogTerminated_flagOk (s : NtfState) (c : Int) :
    ntfFlagOk (ntfDialogTerminated s c).2 := by
  unfold ntfDialogTerminated
  split
  · intro c' b' h; simp at h
  · intro c' b' h
    simp only [List.mem_cons, List.not_mem_nil, or_false] at h
    rcases h with h | h
    · exact absurd h (by simp)
    · simp only [Out.emitTerminatedN.injEq] at h
      rw [h.1, h.2]

theorem ntfNotify_flagOk (s : NtfState) (b : Option String) (now : Int) :
    ntfFlagOk (ntfNotify s b now).2 := by
  unfold ntfNotify
  repeat' split
  all_goals (intro c bb h; simp at h)

theorem ntfReceiveRequest_flagOk (s : NtfState) (req : NtfRequest) (now : Int) :
    ntfFlagOk (ntfReceiveRequest s req now).2 := by
  unfold ntfReceiveRequest
  split
  · intro c b h; simp at h
  · dsimp only
    split
    · apply ntfFlagOk_append
      · intro c b h; simp at h
      · exact ntfDialogTerminated_flagOk _ _
    · intro c b h; simp at h

theorem ntfTerminate_flagOk (s : NtfState) (body reason : Option String)
    (retryAfter : Option Int) (now : Int) :
    ntfFlagOk (ntfTerminate s body reason retryAfter now).2 := by
  unfold ntfTerminate
  dsimp only
  exact ntfFlagOk_append (ntfNotify_flagOk _ _ _) (ntfDialogTerminated_flagOk _ _)

theorem ntfExpiresTimerFire_flagOk (s : NtfState) (now : Int) :
    ntfFlagOk (ntfExpiresTimerFire s now).2 := by
  unfold ntfExpiresTimerFire
  split
  · exact ntfFlagOk_nil
  · dsimp only
    split
    · exact ntfFlagOk_nil
    · exact ntfFlagOk_append (ntfNotify_flagOk _ _ _) (ntfDialogTerminated_flagOk _ _)

theorem ntfStep_flagOk (s : NtfState) (i : NtfInput) : ntfFlagOk (ntfStep s i).2 := by
  cases i with
  | start now => exact ntfReceiveRequest_flagOk s s.initial_subscribe now
  | setActiveState => intro c b h; simp [ntfStep] at h
  | notifyCall body now => exact ntfNotify_flagOk s body now
  | terminateCall body reason retryAfter now => exact ntfTerminate_flagOk s body reason retryAfter now
  | receiveRequest req now => exact ntfReceiveRequest_flagOk s req now
  | expiresTimerFire now => exact ntfExpiresTimerFire_flagOk s now
  | requestTimeout => exact ntfDialogTerminated_flagOk s _
  | transportError => exact ntfDialogTerminated_flagOk s _
  | errorResponse status_code =>
      simp only [ntfStep]
      split
      · exact ntfDialogTerminated_flagOk s _
      · exact ntfDialogTerminated_flagOk s _
  | dialogError => exact ntfDialogTerminated_flagOk s _

theorem ntfRun_flagOk (l : List NtfInput) :
    ∀ s : NtfState, ntfFlagOk (ntfRun s l).2 := by
  induction l with
  | nil => intro s; exact ntfFlagOk_nil
  | cons i is ih =>
      intro s
      simp only [ntfRun]
      exact ntfFlagOk_append (ntfStep_flagOk s i) (ih (ntfStep s i).1)

theorem mkSubscriber_is_terminated (p : SubParams) :
    (mkSubscriber p).is_terminated = false := rfl

theorem mkNotifier_dialog (p : NtfParams) : (mkNotifier p).dialog = true := by
  unfold mkNotifier
  dsimp only
  split
  · rw [ntfSetExpiresTimer_dialog]
  · rfl

/-! ## Claim theorems -/

/-- C1: for every Subscriber and every Notifier instance, over any sequence of
inputs (responses, inbound requests, timer fires, user calls), the
`terminated` event is emitted at most once: every termination path goes
through the private `_dialogTerminated` routine, which returns without effect
on any call after the first. -/
theorem terminated_emitted_at_most_once (sp : SubParams) (np : NtfParams)
    (ls : List SubInput) (ln : List NtfInput) :
    countTerminated (subRun (mkSubscriber sp) ls).2 ≤ 1 ∧
    countTerminated (ntfRun (mkNotifier np) ln).2 ≤ 1 := by
  constructor
  · have h := subRun_pot ls (mkSubscriber sp)
    have hp : subPotential (mkSubscriber sp) = 1 := by
      simp [subPotential, mkSubscriber_is_terminated]
    omega
  · have h := ntfRun_pot ln (mkNotifier np)
    have hp : ntfPotential (mkNotifier np) = 1 := by
      simp [ntfPotential, mkNotifier_dialog]
    omega

/-- C3: for every notifier termination, the `send_final_notify` argument of
the emitted `terminated` event is true if and only if the termination code
equals SUBSCRIPTION_EXPIRED; in particular it is false for
RECEIVE_UNSUBSCRIBE (5), SEND_FINAL_NOTIFY (4) and every NOTIFY_* error code
(0-3), none of which equals 6. -/
theorem send_final_notify_iff_subscription_expired (np : NtfParams)
    (l : List NtfInput) (c : Int) (b : Bool)
    (h : Out.emitTerminatedN c b ∈ (ntfRun (mkNotifier np) l).2) :
    b = (c == C_SUBSCRIPTION_EXPIRED) :=
  ntfRun_flagOk l (mkNotifier np) c b h

/-- Witness for C3: a `terminate()` call emits `terminated` with code
SEND_FINAL_NOTIFY and flag false. -/
theorem send_final_notify_iff_subscription_expired_witness :
    Out.emitTerminatedN C_SEND_FINAL_NOTIFY false ∈
      (ntfRun (mkNotifier sampleNtfParams) [NtfInput.terminateCall none none none 0]).2 ∧
    false = (C_SEND_FINAL_NOTIFY == C_SUBSCRIPTION_EXPIRED) :=
  ⟨by decide,
   send_final_notify_iff_subscription_expired sampleNtfParams
     [NtfInput.terminateCall none none none 0] C_SEND_FINAL_NOTIFY false (by decide)⟩

/-- C4: for every expires value E (seconds) and every `Math.random()` draw
r in [0, 1), the refresh delay computed by `_scheduleSubscribe` /
`_calculateTimeoutMs` satisfies E/2 ≤ τ ≤ E − 70 seconds when E ≥ 140, and
τ = E − 5 seconds otherwise. -/
theorem refresh_window (E r : ℚ) (h0 : 0 ≤ r) (h1 : r < 1) :
    (140 ≤ E → E / 2 ≤ calculateTimeoutMs E r / 1000 ∧
      calculateTimeoutMs E r / 1000 ≤ E - 70) ∧
    (E < 140 → calculateTimeoutMs E r / 1000 = E - 5) := by
  constructor
  · intro hE
    unfold calculateTimeoutMs
    rw [if_pos hE]
    have hc : (0:ℚ) ≤ (E / 2 - 70) * 1000 := by linarith
    have hx0 : (0:ℚ) ≤ (E / 2 - 70) * 1000 * r := mul_nonneg hc h0
    have hfl : ((Int.floor ((E / 2 - 70) * 1000 * r) : Int) : ℚ) ≤
        (E / 2 - 70) * 1000 * r := Int.floor_le _
    have hfg : (0:ℚ) ≤ ((Int.floor ((E / 2 - 70) * 1000 * r) : Int) : ℚ) := by
      exact_mod_cast Int.floor_nonneg.mpr hx0
    have hub : (E / 2 - 70) * 1000 * r ≤ (E / 2 - 70) * 1000 := by nlinarith
    constructor
    · linarith
    · linarith
  · intro hE
    unfold calculateTimeoutMs
    rw [if_neg (not_le.mpr hE)]
    ring

/-- Witness for C4 at E = 200, r = 1/2 and E = 100. -/
theorem refresh_window_witness :
    ((0:ℚ) ≤ 1/2 ∧ (1/2:ℚ) < 1) ∧
    ((140 ≤ (200:ℚ) → (200:ℚ) / 2 ≤ calculateTimeoutMs 200 (1/2) / 1000 ∧
        calculateTimeoutMs 200 (1/2) / 1000 ≤ 200 - 70) ∧
      ((200:ℚ) < 140 → calculateTimeoutMs 200 (1/2) / 1000 = 200 - 5)) ∧
    ((100:ℚ) < 140 → calculateTimeoutMs 100 (1/2) / 1000 = 100 - 5) :=
  ⟨⟨by norm_num, by norm_num⟩,
   refresh_window 200 (1/2) (by norm_num) (by norm_num),
   (refresh_window 100 (1/2) (by norm_num) (by norm_num)).2⟩

/-- C2 (code-bug exhibit): in the definitive `Notifier.receiveRequest`, a
non-SUBSCRIBE method gets reply 405 and nothing else, and a missing Expires
header is treated as the number 900; but when the Expires header is the
string "0" the raw header string is assigned to `this._expires` without
`parseInt`, so the strict comparison `this._expires === 0` is false:
`subscribe` is emitted with `is_unsubscribe = false`, the expiry timer is
rearmed, and no RECEIVE_UNSUBSCRIBE termination happens — contradicting the
claim at the failing input Expires: "0". -/
theorem notifier_unsubscribe_detection_fails :
    (ntfReceiveRequest sampleNotifier badMethodNtfRequest 5).2 = [Out.reply 405 []] ∧
    (ntfReceiveRequest sampleNotifier noExpiresNtfRequest 5).1.expires = JsVal.jnum 900 ∧
    (ntfReceiveRequest sampleNotifier unsubNtfRequest 5).2 =
      [Out.reply 200 ["Expires: 0", "Contact: <sip:ikq@abcdefabcdef.invalid;transport=ws>"],
       Out.emitSubscribe false (some "bye") (some "text/plain")] ∧
    countTerminated (ntfReceiveRequest sampleNotifier unsubNtfRequest 5).2 = 0 ∧
    (ntfReceiveRequest sampleNotifier unsubNtfRequest 5).1.expires_timer_armed = true := by
  decide

/-- C5 counterexample: a NOTIFY whose Event header is unparseable
(`parseHeader` falsy) is answered 400, not 489 as the claim states (it still
terminates with RECEIVE_BAD_NOTIFY). -/
theorem notify_bad_event_replied_400_not_489 :
    Out.reply 400 [] ∈ (subReceiveRequest sampleSubscriber badEventSubRequest 0 0).2 ∧
    Out.reply 489 [] ∉ (subReceiveRequest sampleSubscriber badEventSubRequest 0 0).2 ∧
    Out.emitTerminatedS C_RECEIVE_BAD_NOTIFY none ∈
      (subReceiveRequest sampleSubscriber badEventSubRequest 0 0).2 := by
  decide

/-- C5 (amended): for every inbound request on a live subscription: a
non-NOTIFY method is answered 405 with no termination; a NOTIFY whose Event
header is missing or unparseable is answered 400 and terminates with
RECEIVE_BAD_NOTIFY; a NOTIFY whose (name, id) differs from the subscription's
is answered 489 and terminates with RECEIVE_BAD_NOTIFY; a NOTIFY without a
Subscription-State header is answered 400 and terminates with
RECEIVE_BAD_NOTIFY; otherwise the NOTIFY is answered 200. -/
theorem subscriber_receive_request_validation (s : SubState) (req : SubRequest)
    (now : Int) (r : ℚ) (hterm : s.is_terminated = false) :
    (req.method ≠ "NOTIFY" → subReceiveRequest s req now r = (s, [Out.reply 405 []])) ∧
    (req.method = "NOTIFY" →
      match req.event with
      | none =>
          Out.reply 400 [] ∈ (subReceiveRequest s req now r).2 ∧
          Out.emitTerminatedS C_RECEIVE_BAD_NOTIFY none ∈ (subReceiveRequest s req now r).2 ∧
          Out.reply 489 [] ∉ (subReceiveRequest s req now r).2
      | some ev =>
          if ev.event ≠ s.event_name ∨ ev.id ≠ s.event_id then
            Out.reply 489 [] ∈ (subReceiveRequest s req now r).2 ∧
            Out.emitTerminatedS C_RECEIVE_BAD_NOTIFY none ∈ (subReceiveRequest s req now r).2
          else
            match req.subs_state with
            | none =>
                Out.reply 400 [] ∈ (subReceiveRequest s req now r).2 ∧
                Out.emitTerminatedS C_RECEIVE_BAD_NOTIFY none ∈
                  (subReceiveRequest s req now r).2
            | some _ => Out.reply 200 [] ∈ (subReceiveRequest s req now r).2) := by
  constructor
  · intro hm
    unfold subReceiveRequest
    rw [if_pos hm]
  · intro hm
    have hm2 : ¬(req.method ≠ "NOTIFY") := by simp [hm]
    cases hev : req.event with
    | none =>
        simp only [subReceiveRequest, hev, if_neg hm2]
        unfold subDialogTerminated
        rw [if_neg (by simp [hterm])]
        refine ⟨by simp, by simp, ?_⟩
        by_cases hid : s.id = none <;> simp [hid]
    | some ev =>
        simp only [hev]
        by_cases hmm : ev.event ≠ s.event_name ∨ ev.id ≠ s.event_id
        · rw [if_pos hmm]
          simp only [subReceiveRequest, hev, if_neg hm2, if_pos hmm]
          unfold subDialogTerminated
          rw [if_neg (by simp [hterm])]
          exact ⟨by simp, by simp⟩
        · rw [if_neg hmm]
          cases hss : req.subs_state with
          | none =>
              simp only [subReceiveRequest, hev, hss, if_neg hm2, if_neg hmm]
              unfold subDialogTerminated
              rw [if_neg (by simp [hterm])]
              exact ⟨by simp, by simp⟩
          | some hdr =>
              simp only [subReceiveRequest, hev, hss, if_neg hm2, if_neg hmm]
              split
              · simp
              · simp

/-- Witness for C5 (amended) at the sample subscriber and a NOTIFY carrying
`Event: presence` against a `weather` subscription. -/
theorem subscriber_receive_request_validation_witness :
    sampleSubscriber.is_terminated = false ∧
    (Out.reply 489 [] ∈ (subReceiveRequest sampleSubscriber mismatchEventSubRequest 0 0).2 ∧
     Out.emitTerminatedS C_RECEIVE_BAD_NOTIFY none ∈
       (subReceiveRequest sampleSubscriber mismatchEventSubRequest 0 0).2) :=
  ⟨rfl, by
    have h := (subscriber_receive_request_validation sampleSubscriber
      mismatchEventSubRequest 0 0 rfl).2 rfl
    simpa using h⟩

/-- C6: `Subscriber.unsubscribe` is idempotent: the first call replaces the
Expires header with 0, sends exactly one SUBSCRIBE and arms a 30000 ms timer
whose expiry terminates with UNSUBSCRIBE_TIMEOUT; every subsequent call
returns without sending anything, so two calls produce one network send, and
the calls themselves emit no terminal event. -/
theorem unsubscribe_idempotent (s : SubState) (b b2 : Option String)
    (hg : s.send_unsubscribe = false) :
    (subUnsubscribe s b).2 =
      [Out.sendRequest "SUBSCRIBE"
        (s.headers.map (fun hd => if strStartsWith hd "Expires" then "Expires: 0" else hd)) b] ∧
    (subUnsubscribe s b).1.unsubscribe_timeout_timer = some 30000 ∧
    subUnsubscribe (subUnsubscribe s b).1 b2 = ((subUnsubscribe s b).1, []) ∧
    countSends ((subUnsubscribe s b).2 ++ (subUnsubscribe (subUnsubscribe s b).1 b2).2) = 1 ∧
    countTerminated ((subUnsubscribe s b).2 ++ (subUnsubscribe (subUnsubscribe s b).1 b2).2) = 0 ∧
    (s.is_terminated = false →
      Out.emitTerminatedS C_UNSUBSCRIBE_TIMEOUT none ∈
        (subUnsubscribeTimerFire (subUnsubscribe s b).1).2 ∧
      countTerminated (subUnsubscribeTimerFire (subUnsubscribe s b).1).2 = 1) := by
  have h1 : subUnsubscribe s b =
      (({ s with
          send_unsubscribe := true
          cseq := s.cseq + 1
          unsubscribe_timeout_timer := some 30000 } : SubState),
       [Out.sendRequest "SUBSCRIBE"
         (s.headers.map (fun hd => if strStartsWith hd "Expires" then "Expires: 0" else hd)) b]) := by
    unfold subUnsubscribe subSend
    rw [if_neg (by simp [hg])]
  rw [h1]
  refine ⟨rfl, rfl, ?_, ?_, ?_, ?_⟩
  · unfold subUnsubscribe
    rw [if_pos rfl]
  · unfold subUnsubscribe
    rw [if_pos rfl]
    simp [countSends]
  · unfold subUnsubscribe
    rw [if_pos rfl]
    simp [countTerminated]
  · intro ht
    unfold subUnsubscribeTimerFire subDialogTerminated
    dsimp only
    rw [if_neg (by simp [ht])]
    constructor
    · simp
    · by_cases hid : s.id = none <;> simp [hid, countTerminated]

/-- Witness for C6 at the sample subscriber. -/
theorem unsubscribe_idempotent_witness :
    sampleSubscriber.send_unsubscribe = false ∧
    countSends ((subUnsubscribe sampleSubscriber none).2 ++
      (subUnsubscribe (subUnsubscribe sampleSubscriber none).1 none).2) = 1 ∧
    (subUnsubscribe sampleSubscriber none).1.unsubscribe_timeout_timer = some 30000 :=
  ⟨rfl,
   (unsubscribe_idempotent sampleSubscriber none none rfl).2.2.2.1,
   (unsubscribe_idempotent sampleSubscriber none none rfl).2.1⟩

/-- C7: for every 2xx SUBSCRIBE response whose Expires header is missing, the
subscriber treats the value as the default 900 and, since 900 > 0, the
refresh timer is armed (with the randomised delay for expires 900) and the
expiry timestamp set to now + 900 s. -/
theorem missing_expires_defaults_to_900 (s : SubState) (resp : SubResponse)
    (now : Int) (r : ℚ) (h2xx : 200 ≤ resp.status_code ∧ resp.status_code < 300)
    (hmiss : resp.expires = none) :
    (subOnReceiveResponse s resp now r).1.expires_timer =
      some (calculateTimeoutMs 900 r) ∧
    (subOnReceiveResponse s resp now r).1.expires_timestamp =
      some (now + 900 * 1000) := by
  unfold subOnReceiveResponse
  rw [if_pos h2xx]
  dsimp only
  rw [hmiss]
  have hp : parseIntJS "900" = some 900 := by decide
  simp only [hp]
  rw [if_pos (by norm_num : (900:Int) > 0)]
  unfold subScheduleSubscribe
  norm_num

/-- Witness for C7 at the sample subscriber, a 200 response without Expires
and r = 0. -/
theorem missing_expires_defaults_to_900_witness :
    ((200 ≤ (200:Int) ∧ (200:Int) < 300) ∧
      ({ status_code := 200, to_tag := "tt", expires := none,
         record_route := [] } : SubResponse).expires = none) ∧
    (subOnReceiveResponse sampleSubscriber
      { status_code := 200, to_tag := "tt", expires := none, record_route := [] }
      7 0).1.expires_timer = some (calculateTimeoutMs 900 0) ∧
    (subOnReceiveResponse sampleSubscriber
      { status_code := 200, to_tag := "tt", expires := none, record_route := [] }
      7 0).1.expires_timestamp = some (7 + 900 * 1000) :=
  ⟨⟨by norm_num, rfl⟩,
   missing_expires_defaults_to_900 sampleSubscriber
     { status_code := 200, to_tag := "tt", expires := none, record_route := [] }
     7 0 (by norm_num) rfl⟩

/-- C8: `Notifier.terminate` first sets state = terminated, then sends the
final NOTIFY whose Subscription-State is composed as
`terminated[;reason=R][;retry-after=N]` with no expires parameter (the reason
and retry-after parameters are included exactly when supplied), then
terminates with SEND_FINAL_NOTIFY (whose send_final_notify flag is false);
a second terminate call sends no second NOTIFY and emits nothing. -/
theorem notifier_terminate_final_notify (s : NtfState) (body reason : Option String)
    (retry : Option Int) (now : Int) (body2 reason2 : Option String)
    (retry2 : Option Int) (now2 : Int) (halive : s.dialog = true) :
    (ntfTerminate s body reason retry now).2 =
      [Out.sendRequest "NOTIFY"
        (s.headers ++
          ["Subscription-State: " ++
            ("terminated" ++
              (if jsTruthyStr reason then ";reason=" ++ reason.getD "" else "") ++
              (match retry with
               | some n => ";retry-after=" ++ toString n
               | none => ""))] ++
          (if jsTruthyStr body then ["Content-Type: " ++ s.content_type] else []))
        body,
       Out.dialogTerminate,
       Out.emitTerminatedN C_SEND_FINAL_NOTIFY false] ∧
    (ntfTerminate s body reason retry now).1.state = STATE_TERMINATED ∧
    (ntfTerminate (ntfTerminate s body reason retry now).1 body2 reason2 retry2 now2).2 = [] := by
  have h2 : (2:Int) ≠ 0 ∧ (2:Int) ≠ 1 := by norm_num
  refine ⟨?_, ?_, ?_⟩
  · unfold ntfTerminate ntfNotify ntfDialogTerminated ntfStateNumberToString
    simp [halive, STATE_TERMINATED, STATE_PENDING, STATE_ACTIVE,
      C_SEND_FINAL_NOTIFY, C_SUBSCRIPTION_EXPIRED]
  · unfold ntfTerminate ntfNotify ntfDialogTerminated ntfStateNumberToString
    simp [halive, STATE_TERMINATED, STATE_PENDING, STATE_ACTIVE]
  · unfold ntfTerminate ntfNotify ntfDialogTerminated ntfStateNumberToString
    simp [halive, STATE_TERMINATED, STATE_PENDING, STATE_ACTIVE]

/-- Witness for C8 at the sample notifier with reason `probation` and
retry-after 7. -/
theorem notifier_terminate_final_notify_witness :
    sampleNotifier.dialog = true ∧
    (ntfTerminate sampleNotifier (some "bye") (some "probation") (some 7) 0).2 =
      [Out.sendRequest "NOTIFY"
        (sampleNotifier.headers ++
          ["Subscription-State: terminated;reason=probation;retry-after=7"] ++
          ["Content-Type: " ++ sampleNotifier.content_type])
        (some "bye"),
       Out.dialogTerminate,
       Out.emitTerminatedN C_SEND_FINAL_NOTIFY false] ∧
    (ntfTerminate (ntfTerminate sampleNotifier (some "bye") (some "probation") (some 7) 0).1
      none none none 1).2 = [] := by
  have h := notifier_terminate_final_notify sampleNotifier (some "bye") (some "probation")
    (some 7) 0 none none none 1 (by decide)
  refine ⟨by decide, ?_, h.2.2⟩
  rw [h.1]
  decide

/-- C9 (code-bug exhibit): `Subscriber.onReceiveResponse` has no terminated
guard, so after the subscription has terminated (state `terminated`,
`terminated` already emitted), a late 2xx response with Expires 3600 rearms
the refresh timer, and its fire sends a refresh SUBSCRIBE — although the
claim (spec invariant 2) says that once state = terminated no refresh
SUBSCRIBE is ever scheduled. -/
theorem zombie_refresh_after_termination :
    (subRun sampleSubscriber lateResponseInputs).1.state = "terminated" ∧
    (subRun sampleSubscriber lateResponseInputs).1.is_terminated = true ∧
    (subRun sampleSubscriber lateResponseInputs).1.expires_timer.isSome = true ∧
    (subRun sampleSubscriber (lateResponseInputs ++ [SubInput.refreshTimerFire])).2 =
      [Out.sendRequest "SUBSCRIBE" sampleSubscriber.headers none,
       Out.sendRequest "SUBSCRIBE" sampleSubscriber.headers none,
       Out.emitTerminatedS C_SUBSCRIBE_NON_OK_RESPONSE none,
       Out.newDialog,
       Out.sendRequest "SUBSCRIBE" sampleSubscriber.headers none] := by
  decide

/-- C10: `Subscriber.unsubscribe` does not change the observable state: after
a first call the `state` getter still returns its previous value, and the
state becomes `terminated` only later — when the 30 s unsubscribe timer fires
or when a final NOTIFY (matching Event, Subscription-State terminated)
arrives. -/
theorem unsubscribe_preserves_observable_state (s : SubState) (b : Option String)
    (hg : s.send_unsubscribe = false) (ht : s.is_terminated = false)
    (hdr : SubsStateHdr) (hfin : strToLower hdr.state = "terminated")
    (now : Int) (r : ℚ) :
    (subUnsubscribe s b).1.state = s.state ∧
    (subUnsubscribeTimerFire (subUnsubscribe s b).1).1.state = "terminated" ∧
    (subReceiveRequest (subUnsubscribe s b).1
      { method := "NOTIFY"
        event := some { event := s.event_name, id := s.event_id }
        subs_state := some hdr
        body := none
        content_type := none } now r).1.state = "terminated" := by
  have h1 : subUnsubscribe s b =
      (({ s with
          send_unsubscribe := true
          cseq := s.cseq + 1
          unsubscribe_timeout_timer := some 30000 } : SubState),
       [Out.sendRequest "SUBSCRIBE"
         (s.headers.map (fun hd => if strStartsWith hd "Expires" then "Expires: 0" else hd)) b]) := by
    unfold subUnsubscribe subSend
    rw [if_neg (by simp [hg])]
  rw [h1]
  refine ⟨rfl, ?_, ?_⟩
  · unfold subUnsubscribeTimerFire subDialogTerminated
    dsimp only
    rw [if_neg (by simp [ht])]
  · unfold subReceiveRequest
    rw [if_neg (by simp)]
    dsimp only
    rw [if_neg (by simp)]
    simp only [hfin, if_true]
    unfold subDialogTerminated
    rw [if_neg (by simp [subAdoptState_is_terminated, ht])]

/-- Witness for C10 at the sample subscriber in the active state. -/
theorem unsubscribe_preserves_observable_state_witness :
    (sampleSubscriberActive.send_unsubscribe = false ∧
      sampleSubscriberActive.is_terminated = false ∧
      strToLower finalSubsStateHdr.state = "terminated") ∧
    (subUnsubscribe sampleSubscriberActive none).1.state = "active" ∧
    (subUnsubscribeTimerFire (subUnsubscribe sampleSubscriberActive none).1).1.state =
      "terminated" :=
  ⟨⟨rfl, rfl, by decide⟩,
   (unsubscribe_preserves_observable_state sampleSubscriberActive none rfl rfl
     finalSubsStateHdr (by decide) 0 0).1,
   (unsubscribe_preserves_observable_state sampleSubscriberActive none rfl rfl
     finalSubsStateHdr (by decide) 0 0).2.1⟩
